import Mathlib

/-
Verification of the LinkedIn Connection Assistant browser extension
(content script, background service worker, popup) against its design
specification.  The JavaScript sources are shallowly embedded: pure string
manipulation becomes functions over Lean strings (represented through their
character lists so that everything reduces in the kernel), the DOM and the
extension message bus become explicit environment records, and each message
handler becomes a function from an environment and a state to the list of
responses it emits together with the successor state.
-/

/-! ## JavaScript string primitives

The sources use the built-in string operations includes, trim, toLowerCase,
substring, split and endsWith.  They are modelled over the character list of
a Lean string (ASCII-faithful, which covers every string the sources
manipulate). -/

/-- Model of the JavaScript lowercase conversion for one character
(ASCII range, which is all the sources rely on). -/
def lowerChar (c : Char) : Char :=
  if 65 ≤ c.toNat ∧ c.toNat ≤ 90 then Char.ofNat (c.toNat + 32) else c

/-- Model of JavaScript String.prototype.toLowerCase. -/
def jsToLower (s : String) : String := ⟨s.data.map lowerChar⟩

/-- Whitespace recognised by the trim model. -/
def isWsChar (c : Char) : Bool := c = ' ' || c = '\t' || c = '\n' || c = '\r'

/-- Model of JavaScript String.prototype.trim. -/
def jsTrim (s : String) : String :=
  ⟨((s.data.dropWhile isWsChar).reverse.dropWhile isWsChar).reverse⟩

/-- Helper for the substring search: does the needle occur in the haystack. -/
def hasSub (needle : List Char) : List Char → Bool
  | [] => needle.isEmpty
  | c :: rest => needle.isPrefixOf (c :: rest) || hasSub needle rest

/-- Model of JavaScript String.prototype.includes. -/
def jsIncludes (s sub : String) : Bool := hasSub sub.data s.data

/-- Model of the JavaScript idiom s.split(" ")[0]: the characters before the
first space. -/
def firstWord (s : String) : String := ⟨s.data.takeWhile (· ≠ ' ')⟩

/-- Model of JavaScript s.substring(0, n): the first n characters (all of s
when s is shorter). -/
def jsSubstring (s : String) (n : Nat) : String := ⟨s.data.take n⟩

/-- Model of JavaScript String.prototype.endsWith. -/
def jsEndsWith (s sub : String) : Bool := List.isSuffixOf sub.data s.data

/-! ## DOM environment

A document is modelled by the results of its two query operations:
querySelector yields the text content of the first matching element when one
exists, querySelectorAll yields the text contents of all matching elements.
Selector strings are kept verbatim from content.js. -/

/-- Abstraction of the page document: querySelector (q, returning the
textContent of the matched element when one matches) and querySelectorAll
(qa, returning the textContent of every match, in document order). -/
structure Dom where
  q : String → Option String
  qa : String → List String

/-- One lookup step of the extractor loops of content.js: the trimmed text of
the selector match when the element exists and its trimmed text is non-empty
(JavaScript truthiness of the trimmed string). -/
def matchText (q : String → Option String) (sel : String) : Option String :=
  match q sel with
  | some txt => if jsTrim txt = "" then none else some (jsTrim txt)
  | none => none

/-- Shared shape of extractName, extractHeadline, extractCompany and
extractLocation in content.js: walk the ordered selector list, return the
first non-empty trimmed text, else the given default. -/
def extractField (q : String → Option String) (dflt : String) : List String → String
  | [] => dflt
  | sel :: rest =>
    match matchText q sel with
    | some txt => txt
    | none => extractField q dflt rest

/-- Selector list of LinkedInConnectionAssistant.extractName. -/
def nameSelectors : List String :=
  ["h1.text-heading-xlarge",
   ".pv-text-details__left-panel h1",
   ".pv-top-card--list-bullet h1",
   ".ph5 h1",
   "h1.break-words"]

/-- Model of LinkedInConnectionAssistant.extractName. -/
def extractName (d : Dom) : String := extractField d.q "there" nameSelectors

/-- Selector list of LinkedInConnectionAssistant.extractHeadline. -/
def headlineSelectors : List String :=
  [".text-body-medium.break-words",
   ".pv-text-details__left-panel .text-body-medium",
   ".pv-top-card .pv-top-card__headline",
   ".ph5 .text-body-medium"]

/-- Model of LinkedInConnectionAssistant.extractHeadline. -/
def extractHeadline (d : Dom) : String := extractField d.q "" headlineSelectors

/-- Selector list of LinkedInConnectionAssistant.extractCompany. -/
def companySelectors : List String :=
  [".pv-text-details__left-panel .pv-entity__secondary-title",
   ".pv-top-card .pv-entity__secondary-title",
   ".ph5 .pv-entity__secondary-title",
   ".experience-section .pv-entity__summary-info .pv-entity__secondary-title",
   "[data-field=\"experience\"] .pv-entity__summary-info .pv-entity__secondary-title"]

/-- Model of LinkedInConnectionAssistant.extractCompany. -/
def extractCompany (d : Dom) : String := extractField d.q "" companySelectors

/-- Selector list of LinkedInConnectionAssistant.extractLocation. -/
def locationSelectors : List String :=
  [".text-body-small.inline.t-black--light",
   ".pv-text-details__left-panel .text-body-small",
   ".pv-top-card .pv-top-card__location",
   ".ph5 .text-body-small"]

/-- Model of LinkedInConnectionAssistant.extractLocation. -/
def extractLocation (d : Dom) : String := extractField d.q "" locationSelectors

/-- Selector list of LinkedInConnectionAssistant.extractAbout. -/
def aboutSelectors : List String :=
  [".pv-shared-text-with-see-more-text .break-words",
   ".pv-about__summary-text .break-words",
   "[data-field=\"summary\"] .break-words",
   ".about-section .pv-shared-text-with-see-more-text"]

/-- Loop body of LinkedInConnectionAssistant.extractAbout: the first selector
whose element has non-empty trimmed text yields that text truncated to 200
characters with the literal suffix appended; otherwise the empty default. -/
def extractAboutFrom (q : String → Option String) : List String → String
  | [] => ""
  | sel :: rest =>
    match matchText q sel with
    | some txt => jsSubstring txt 200 ++ "..."
    | none => extractAboutFrom q rest

/-- Model of LinkedInConnectionAssistant.extractAbout. -/
def extractAbout (d : Dom) : String := extractAboutFrom d.q aboutSelectors

/-- Selector list of LinkedInConnectionAssistant.extractExperience. -/
def experienceSelectors : List String :=
  [".experience-section .pv-entity__summary-info",
   "[data-field=\"experience\"] .pv-entity__summary-info",
   ".pvs-list__item--experience .pvs-entity__summary-info"]

/-- Loop body of LinkedInConnectionAssistant.extractExperience: the first
selector with a non-empty querySelectorAll result yields its first two
entries, trimmed and joined by a separator; otherwise the empty default. -/
def extractExperienceFrom (qa : String → List String) : List String → String
  | [] => ""
  | sel :: rest =>
    match qa sel with
    | [] => extractExperienceFrom qa rest
    | es => String.intercalate "; " ((es.take 2).map jsTrim)

/-- Model of LinkedInConnectionAssistant.extractExperience. -/
def extractExperience (d : Dom) : String := extractExperienceFrom d.qa experienceSelectors

/-! ## Industry classification -/

/-- Keyword table of LinkedInConnectionAssistant.extractIndustry, in its
declared order. -/
def industries : List (String × List String) :=
  [("tech", ["software", "developer", "engineer", "tech", "programming",
             "coding", "javascript", "python", "react", "node"]),
   ("marketing", ["marketing", "digital", "social media", "seo", "content",
                  "brand", "advertising"]),
   ("sales", ["sales", "business development", "account", "revenue",
              "client", "customer"]),
   ("finance", ["finance", "financial", "investment", "banking",
                "accounting", "analyst"]),
   ("healthcare", ["healthcare", "medical", "doctor", "nurse", "physician",
                   "hospital", "clinic"]),
   ("education", ["education", "teacher", "professor", "academic",
                  "university", "school"]),
   ("consulting", ["consulting", "consultant", "advisory", "strategy",
                   "management"])]

/-- Classification loop of extractIndustry: the first table entry with some
keyword occurring in the text wins, else the default category. -/
def classifyIndustry (text : String) : String :=
  match industries.find? (fun p => p.2.any (fun kw => jsIncludes text kw)) with
  | some p => p.1
  | none => "professional"

/-- Model of LinkedInConnectionAssistant.extractIndustry: classify the
lowercased concatenation of headline, about and company. -/
def extractIndustry (d : Dom) : String :=
  classifyIndustry (jsToLower (extractHeadline d ++ " " ++ extractAbout d ++ " " ++ extractCompany d))

/-! ## Profile record and page guard -/

/-- ProfileRecord of the data model: the record assembled by
LinkedInConnectionAssistant.extractProfileData. -/
structure ProfileRecord where
  name : String
  headline : String
  company : String
  location : String
  about : String
  experience : String
  industry : String
deriving Repr, DecidableEq

/-- Model of LinkedInConnectionAssistant.extractProfileData. -/
def extractProfileData (d : Dom) : ProfileRecord :=
  { name := extractName d
    headline := extractHeadline d
    company := extractCompany d
    location := extractLocation d
    about := extractAbout d
    experience := extractExperience d
    industry := extractIndustry d }

/-! ## JSON-like values and message responses

Settings documents and message payloads are untyped JavaScript values; they
are modelled by a small JSON-like type with the JavaScript truthiness
predicate the sources rely on. -/

/-- JSON-like runtime value. -/
inductive JVal where
  | null
  | bool (b : Bool)
  | num (n : Int)
  | str (s : String)
  | obj (fields : List (String × JVal))

/-- JavaScript truthiness of a value (numbers other than zero, non-empty
strings, every object and true are truthy). -/
def JVal.truthy : JVal → Bool
  | .null => false
  | .bool b => b
  | .num n => n != 0
  | .str s => s ≠ ""
  | .obj _ => true

/-- Field lookup on an object value (absent key and non-object both give
undefined, modelled as none). -/
def JVal.objGet : JVal → String → Option JVal
  | .obj fs, k => (fs.find? (fun p => p.1 = k)).map (fun p => p.2)
  | _, _ => none

/-- Truthiness of an optional value (none models the JavaScript undefined). -/
def jsTruthy : Option JVal → Bool
  | none => false
  | some v => v.truthy

/-- Shape of every response object the handlers send: a JavaScript object
whose recognised keys are success, error, ready, message, data and
profileData, each possibly absent. -/
structure JResp where
  success : Option Bool := none
  error : Option String := none
  ready : Option Bool := none
  message : Option String := none
  data : Option JVal := none
  profileData : Option ProfileRecord := none

/-- The response sent by the unknown-action branches of both dispatchers. -/
def unknownActionResp : JResp := { success := some false, error := some "Unknown action" }

/-! ## Content script state and dispatch (content.js) -/

/-- State owned by the window.linkedinAssistant instance.  The constructor
assigns an empty settings object synchronously (the asynchronous
loadSettings call later replaces it from storage); the settingsUpdated
handler overwrites it with the payload of the notification. -/
structure AssistantState where
  settings : JVal

/-- Mutable state of the content script context: the readiness flag and the
optional assistant instance attached to the window. -/
structure ContentState where
  isContentScriptReady : Bool
  assistant : Option AssistantState

/-- Model of initializeContentScript: a no-op when the ready flag is already
set, otherwise it attaches a fresh assistant and sets the flag. -/
def initializeContentScript (s : ContentState) : ContentState :=
  if s.isContentScriptReady then s
  else { isContentScriptReady := true, assistant := some { settings := .obj [] } }

/-- Environment of one content-script message delivery: the page document,
the result of the profile-URL pattern test on the current address, and the
data payload carried by the request (used by settingsUpdated). -/
structure ContentEnv where
  dom : Dom
  urlMatchesProfile : Bool
  requestData : JVal

/-- Model of LinkedInConnectionAssistant.isProfilePage: the URL pattern must
match and at least one recognised heading node must exist. -/
def isProfilePage (env : ContentEnv) : Bool :=
  env.urlMatchesProfile &&
    ((env.dom.q "h1.text-heading-xlarge").isSome ||
     (env.dom.q ".pv-text-details__left-panel h1").isSome ||
     (env.dom.q ".ph5 h1").isSome)

/-- Model of LinkedInConnectionAssistant.getProfileDataForMessage. -/
def getProfileDataForMessage (env : ContentEnv) : JResp :=
  if isProfilePage env then
    { success := some true, profileData := some (extractProfileData env.dom) }
  else
    { success := some false, error := some "Not a LinkedIn profile page" }

/-- Body of the content.js listener after the ping guard and the lazy
initialization: the assistant-missing guard and the action switch, against
the (possibly freshly initialized) state s1. -/
def contentHandleAction (env : ContentEnv) (action : String) (s1 : ContentState) :
    List JResp × ContentState :=
  match s1.assistant with
  | none => ([{ success := some false, error := some "Assistant not initialized" }], s1)
  | some a =>
    if action = "getProfileData" then
      ([getProfileDataForMessage env], s1)
    else if action = "settingsUpdated" then
      ([{ success := some true }],
       { s1 with assistant := some { a with settings := env.requestData } })
    else
      ([unknownActionResp], s1)

/-- Model of the chrome.runtime.onMessage listener of content.js: given the
action string, the environment and the current state, the list of responses
it sends (one element per sendResponse call) and the successor state.  A
ping is answered from the readiness flag and returns before the lazy
initialization; every other action first initializes the content script when
the flag is unset. -/
def contentDispatch (env : ContentEnv) (action : String) (s : ContentState) :
    List JResp × ContentState :=
  if action = "ping" then
    ([{ ready := some s.isContentScriptReady }], s)
  else
    contentHandleAction env action
      (if s.isContentScriptReady then s else initializeContentScript s)

/-! ## Generation client (background handleGenerateMessage) -/

/-- One part of a candidate content block of the generation-API response. -/
structure GeminiPart where
  text : String

/-- Content block of a candidate. -/
structure GeminiContent where
  parts : List GeminiPart

/-- One candidate of the generation-API response body. -/
structure GeminiCandidate where
  content : GeminiContent

/-- Prompt feedback block of the generation-API response body; blockReason is
absent or a string (possibly empty, which JavaScript treats as falsy). -/
structure PromptFeedback where
  blockReason : Option String

/-- Generation-API response body: an optional candidate list and optional
prompt feedback. -/
structure GeminiResponse where
  candidates : Option (List GeminiCandidate)
  promptFeedback : Option PromptFeedback

/-- Outcome of the response-body branch of handleGenerateMessage. -/
inductive GenResult where
  | success (message : String)
  | blocked (reason : String)
  | empty
  | thrown
deriving Repr, DecidableEq

/-- Model of the response-body handling of handleGenerateMessage in
background.js: candidates present and non-empty yields the trimmed text of
the first part of the first candidate (a candidate without parts makes the
JavaScript member access throw, modelled by the thrown outcome); otherwise a
truthy blockReason in the prompt feedback yields the blocked outcome;
otherwise the empty outcome. -/
def handleGeminiResponse (r : GeminiResponse) : GenResult :=
  match r.candidates with
  | some (c :: _) =>
    match c.content.parts with
    | p :: _ => .success (jsTrim p.text)
    | [] => .thrown
  | _ =>
    match r.promptFeedback with
    | some pf =>
      match pf.blockReason with
      | some reason => if reason = "" then .empty else .blocked reason
      | none => .empty
    | none => .empty

/-- Environment of one handleGenerateMessage call: whether loadApiKey
produced a key, and the outcome of the fetch to the generation endpoint
(error carries the message of the thrown error, ok carries the HTTP result). -/
structure FetchResult where
  ok : Bool
  errorMessage : String
  body : GeminiResponse

structure GenEnv where
  apiKey : Option String
  fetch : Except String FetchResult

/-- Model of handleGenerateMessage in background.js, as the response object
it resolves with. -/
def handleGenerateMessage (env : GenEnv) : JResp :=
  match env.apiKey with
  | none =>
    { success := some false
      error := some "API Key not loaded. Please check your .env file and reload the extension." }
  | some _ =>
    match env.fetch with
    | .error msg => { success := some false, error := some msg }
    | .ok fr =>
      if fr.ok then
        match handleGeminiResponse fr.body with
        | .success m => { success := some true, message := some m }
        | .blocked reason =>
          { success := some false
            error := some ("Message generation failed because the prompt was blocked. Reason: " ++ reason) }
        | .empty =>
          { success := some false
            error := some "Message generation failed. The API returned an empty response." }
        | .thrown =>
          { success := some false, error := some "TypeError" }
      else
        { success := some false
          error := some ("Google Gemini API error: " ++ fr.errorMessage) }

/-! ## Prompt construction (background createPrompt) -/

/-- Model of createPrompt in background.js.  The template literal is
reproduced verbatim, with each interpolation point becoming a string
append. -/
def createPrompt (p : ProfileRecord) : String :=
  let firstName := firstWord (if p.name = "" then "there" else p.name)
  "\nWrite ONE LinkedIn connection message that follows ALL rules:\n\n• Must be 295-300 characters total (hard cap). Count spaces & punctuation.\n• Start with \"Hi "
    ++ firstName
    ++ ",\" using their first name.\n• Mention ONE specific fact about their work, company, or field (headline: "
    ++ p.headline
    ++ "; company: "
    ++ p.company
    ++ "; industry: "
    ++ p.industry
    ++ ").\n• Introduce yourself briefly: you are a computer-science graduate and full-stack developer (phrase it naturally, no tech buzzword list).\n• State you are currently exploring opportunities and open to hearing about relevant roles.\n• Offer to share your resume if helpful.\n• Use plain, respectful English – no slang, hype, buzzwords, or job-begging phrases (e.g., don't say \"open to work\").\n• Keep the tone clean, casual, raw, and real – avoid flattery or compliments like \"impressed by your work\".\n• End with a brief close like \"Let me know.\", \"Would be glad to connect.\", or \"Happy to connect if that works for you.\" Pick any ONE.\n• Aim for natural variety; do not repeat exact sentences each time.\n\nReturn ONLY the single message text (no extra words).\n"

/-! ## Background dispatch (top-level listener plus BackgroundManager) -/

/-- Environment of one background message delivery: the stored settings
document (as returned by the storage read) and the environment of the
generation call. -/
structure BgEnv where
  storedSettings : JVal
  gen : GenEnv

/-- Model of the top-level chrome.runtime.onMessage listener of
background.js: it answers only the generateGeminiMessage action (with the
resolution of handleGenerateMessage) and sends nothing for every other
action. -/
def topLevelRespond (env : BgEnv) (action : String) : List JResp :=
  if action = "generateGeminiMessage" then [handleGenerateMessage env.gen] else []

/-- Model of BackgroundManager.handleMessage: the switch over the action
string, one sendResponse call per recognised branch, no response at all for
generateGeminiMessage (deferred to the top-level listener), and the
unknown-action default. -/
def managerRespond (env : BgEnv) (action : String) : List JResp :=
  if action = "getSettings" then
    [{ success := some true, data := some env.storedSettings }]
  else if action = "saveSettings" then
    [{ success := some true }]
  else if action = "generateMessage" then
    [{ success := some true, message := some "Message generation handled by content script" }]
  else if action = "logActivity" then
    [{ success := some true }]
  else if action = "generateGeminiMessage" then
    []
  else
    [unknownActionResp]

/-- Combined responses of the background context to one delivered request:
both registered listeners receive it; the concatenation lists every
sendResponse call made. -/
def backgroundRespond (env : BgEnv) (action : String) : List JResp :=
  topLevelRespond env action ++ managerRespond env action

/-! ## Settings store and version-update migration -/

/-- A settings document: the flat key-value store, as the partial map from
top-level keys to values (none at a key models an absent property). -/
def SettingsDoc : Type := String → Option JVal

/-- Assignment of one property of the in-memory copy of the document. -/
def setKey (d : SettingsDoc) (k : String) (v : JVal) : SettingsDoc :=
  fun k2 => if k2 = k then some v else d k2

/-- Model of chrome.storage.sync.set: every key present in the written
object overwrites the stored document, every other key is untouched. -/
def storageSet (d u : SettingsDoc) : SettingsDoc :=
  fun k => match u k with
  | some v => some v
  | none => d k

/-- Default statistics section written by BackgroundManager.handleUpdate
when the stored document lacks one; ts stands for the serialised current
date. -/
def defaultStatistics (ts : JVal) : JVal :=
  .obj [("messagesGenerated", .num 0), ("extensionUpdated", ts)]

/-- Model of BackgroundManager.handleUpdate (the version-update migration):
read the whole document; when its statistics property is falsy, assign the
default statistics section on the in-memory copy and write the copy back;
otherwise write nothing. -/
def handleUpdate (doc : SettingsDoc) (ts : JVal) : SettingsDoc :=
  if jsTruthy (doc "statistics") then doc
  else storageSet doc (setKey doc "statistics" (defaultStatistics ts))

/-! ## Messaging bridge (background sendMessageToTab) -/

/-- Trace of the externally visible attempts one bridge call makes:
installs counts chrome.scripting.executeScript calls, deliveries counts
chrome.tabs.sendMessage calls carrying the original request (the ping probe
is not a delivery of the logical request). -/
structure Trace where
  installs : Nat
  deliveries : Nat
deriving Repr, DecidableEq

/-- Outcome of a bridge call.  delivered carries the response of the target
context; tabError is the return with the text
"Tab not accessible or not on LinkedIn"; injectError is the return with the
text "Failed to inject content script. Please refresh the page."; getError
is the outer catch around the tab lookup. -/
inductive SendResult (α : Type) where
  | delivered (r : α)
  | tabError
  | injectError
  | getError
deriving Repr, DecidableEq

/-- Environment of one sendMessageToTab call against a fixed target tab:
whether the tab lookup resolves, whether its URL contains linkedin.com, the
outcome of the ping probe (none models a rejected probe, some b models a
response whose ready field has truthiness b), the outcome of a direct
delivery after a ready probe, whether script injection resolves, and the
outcome of the post-injection delivery (none models a rejected channel). -/
structure TabEnv (α : Type) where
  tabGetOk : Bool
  tabIsLinkedIn : Bool
  ping : Option Bool
  deliver1 : Option α
  installOk : Bool
  deliver2 : Option α

/-- Injection branch of sendMessageToTab: one executeScript call, then (when
injection resolved) the fixed settling delay followed by one delivery
attempt of the original request; any rejection inside the branch returns the
injection failure. pre counts the delivery attempts already made. -/
def injectAndRetry {α : Type} (env : TabEnv α) (pre : Nat) : SendResult α × Trace :=
  if env.installOk then
    match env.deliver2 with
    | some r => (.delivered r, ⟨1, pre + 1⟩)
    | none => (.injectError, ⟨1, pre + 1⟩)
  else
    (.injectError, ⟨1, pre⟩)

/-- Model of sendMessageToTab in background.js, instrumented with the trace
of installation and delivery attempts. -/
def sendMessageToTab {α : Type} (env : TabEnv α) : SendResult α × Trace :=
  if ¬ env.tabGetOk then (.getError, ⟨0, 0⟩)
  else if ¬ env.tabIsLinkedIn then (.tabError, ⟨0, 0⟩)
  else
    match env.ping with
    | some true =>
      match env.deliver1 with
      | some r => (.delivered r, ⟨0, 1⟩)
      | none => injectAndRetry env 1
    | some false => injectAndRetry env 0
    | none => injectAndRetry env 0

/-! ## Popup profile fetch (popup.js handleGenerateMessage, step 2) -/

/-- Environment of the popup fetch of profile data: the outcome of the first
getProfileData delivery (error carries the message of the rejection), whether
the fallback injection resolves, and the outcome of the retried delivery. -/
structure PopupEnv (α : Type) where
  deliver1 : Except String α
  installOk : Bool
  deliver2 : Except String α

/-- Model of the profile-data step of PopupManager.handleGenerateMessage:
one delivery, and on a receiving-end-missing rejection one injection followed
by one retried delivery; a failure of the injected cycle becomes the fixed
connection-failure error. -/
def popupGetProfileData {α : Type} (env : PopupEnv α) : Except String α × Trace :=
  match env.deliver1 with
  | .ok r => (.ok r, ⟨0, 1⟩)
  | .error msg =>
    if jsIncludes msg "Receiving end does not exist" then
      if env.installOk then
        match env.deliver2 with
        | .ok r => (.ok r, ⟨1, 2⟩)
        | .error _ =>
          (.error "Connection failed even after injecting content script. Please refresh the LinkedIn page.", ⟨1, 2⟩)
      else
        (.error "Connection failed even after injecting content script. Please refresh the LinkedIn page.", ⟨1, 1⟩)
    else
      (.error msg, ⟨0, 1⟩)

/-! ## Concrete fixtures used by witnesses and counterexamples -/

/-- Profile record of the C8 fixture: name Ada, headline Engineer, every
other field empty. -/
def adaProfile : ProfileRecord :=
  { name := "Ada", headline := "Engineer", company := "", location := ""
    about := "", experience := "", industry := "" }

/-- Document refuting C5 as literally stated: it contains the field
statistics with the (falsy) value 0. -/
def migrationCexDoc : SettingsDoc := fun k =>
  if k = "userContext" then some (.str "CS grad")
  else if k = "statistics" then some (.num 0)
  else none

/-- The closed message-action set named by the specification. -/
def claimedActions : List String :=
  ["ping", "getProfileData", "generateMessage", "settingsUpdated",
   "showGenerateButton", "getSettings", "saveSettings", "logActivity"]

/-- Content-script environment fixture: an empty page. -/
def emptyPageEnv : ContentEnv :=
  { dom := { q := fun _ => none, qa := fun _ => [] }
    urlMatchesProfile := false
    requestData := .null }

/-- Content-script state fixture: not yet initialized. -/
def freshContentState : ContentState :=
  { isContentScriptReady := false, assistant := none }

/-! ## Helper lemmas -/

theorem hasSub_nil (l : List Char) : hasSub [] l = true := by
  cases l <;> simp [hasSub, List.isPrefixOf]

theorem hasSub_append (a m b : List Char) : hasSub m (a ++ m ++ b) = true := by
  induction a with
  | nil =>
    cases m with
    | nil => exact hasSub_nil b
    | cons c cs =>
      simp only [List.nil_append, hasSub]
      rw [List.isPrefixOf_iff_prefix.mpr (by exact ⟨b, by simp⟩)]
      simp
  | cons x xs ih =>
    simp only [List.cons_append, hasSub, List.append_eq]
    rw [ih]
    simp

theorem jsIncludes_append (a m b : String) : jsIncludes (a ++ m ++ b) m = true := by
  have h : (a ++ m ++ b).data = a.data ++ m.data ++ b.data := by
    rw [String.data_append, String.data_append]
  rw [jsIncludes, h]
  exact hasSub_append a.data m.data b.data

theorem extractField_eq_default (q : String → Option String) (dflt : String)
    (sels : List String) (h : ∀ sel ∈ sels, matchText q sel = none) :
    extractField q dflt sels = dflt := by
  induction sels with
  | nil => rfl
  | cons sel rest ih =>
    have hsel := h sel (List.mem_cons_self sel rest)
    simp only [extractField, hsel]
    exact ih (fun s hs => h s (List.mem_cons_of_mem sel hs))

theorem extractAboutFrom_cases (q : String → Option String) (sels : List String) :
    extractAboutFrom q sels = "" ∨
    ∃ t : String, extractAboutFrom q sels = jsSubstring t 200 ++ "..." := by
  induction sels with
  | nil => exact Or.inl rfl
  | cons sel rest ih =>
    cases hm : matchText q sel with
    | some txt => exact Or.inr ⟨txt, by simp [extractAboutFrom, hm]⟩
    | none => simpa [extractAboutFrom, hm] using ih

theorem find?_append_first {α : Type} (p : α → Bool) (l : List α) (x : α) (r : List α)
    (h : ∀ y ∈ l, p y = false) (hx : p x = true) :
    List.find? p (l ++ x :: r) = some x := by
  induction l with
  | nil => simpa using List.find?_cons_of_pos r hx
  | cons a as ih =>
    have ha : p a = false := h a (List.mem_cons_self a as)
    rw [List.cons_append, List.find?_cons_of_neg _ (by simp [ha])]
    exact ih (fun y hy => h y (List.mem_cons_of_mem a hy))

theorem classifyIndustry_mem_of_find (p : String × List String)
    (hp : p ∈ industries) :
    p.1 ∈ ["tech", "marketing", "sales", "finance", "healthcare", "education",
           "consulting", "professional"] := by
  simp only [industries, List.mem_cons, List.not_mem_nil, or_false] at hp
  rcases hp with h | h | h | h | h | h | h <;> subst h <;> decide

theorem industries_fst_ne_professional (p : String × List String)
    (hp : p ∈ industries) : p.1 ≠ "professional" := by
  simp only [industries, List.mem_cons, List.not_mem_nil, or_false] at hp
  rcases hp with h | h | h | h | h | h | h <;> subst h <;> decide

/-! ## Claim theorems -/

/-- C4: for every input text (the lowercased concatenation of headline,
about and company), industry classification returns exactly one category
from the fixed eight-element set; the keyword table is evaluated in declared
order with first-match-wins semantics; the default category is returned
exactly when no keyword of any category occurs in the text; and the result
is a pure function of the input text (identical on identical inputs). -/
theorem extractIndustry_classifier_spec :
    (∀ text : String, classifyIndustry text ∈
      ["tech", "marketing", "sales", "finance", "healthcare", "education",
       "consulting", "professional"]) ∧
    (∀ text : String, classifyIndustry text = "professional" ↔
      ∀ p ∈ industries, ∀ kw ∈ p.2, jsIncludes text kw = false) ∧
    (∀ (text : String) (l : List (String × List String)) (p : String × List String)
       (r : List (String × List String)),
      industries = l ++ p :: r →
      (∀ q ∈ l, ∀ kw ∈ q.2, jsIncludes text kw = false) →
      (∃ kw ∈ p.2, jsIncludes text kw = true) →
      classifyIndustry text = p.1) ∧
    (∀ d : Dom, extractIndustry d = classifyIndustry
      (jsToLower (extractHeadline d ++ " " ++ extractAbout d ++ " " ++ extractCompany d))) ∧
    (∀ t1 t2 : String, t1 = t2 → classifyIndustry t1 = classifyIndustry t2) := by
  refine ⟨?_, ?_, ?_, fun d => rfl, fun t1 t2 h => by rw [h]⟩
  · intro text
    unfold classifyIndustry
    cases hf : industries.find? (fun p => p.2.any (fun kw => jsIncludes text kw)) with
    | none => decide
    | some p => exact classifyIndustry_mem_of_find p (List.mem_of_find?_eq_some hf)
  · intro text
    unfold classifyIndustry
    constructor
    · intro h
      cases hf : industries.find? (fun p => p.2.any (fun kw => jsIncludes text kw)) with
      | none =>
        intro p hp kw hkw
        have := List.find?_eq_none.mp hf p hp
        simp only [Bool.not_eq_true] at this
        have h2 := List.any_eq_false.mp this kw hkw
        simpa using h2
      | some p =>
        rw [hf] at h
        exact absurd h (industries_fst_ne_professional p (List.mem_of_find?_eq_some hf))
    · intro h
      have hf : industries.find? (fun p => p.2.any (fun kw => jsIncludes text kw)) = none := by
        rw [List.find?_eq_none]
        intro p hp
        simp only [Bool.not_eq_true, List.any_eq_false]
        exact fun kw hkw => h p hp kw hkw
      rw [hf]
  · intro text l p r hind hl hp
    unfold classifyIndustry
    rw [hind, find?_append_first _ l p r
      (fun q hq => List.any_eq_false.mpr (by
        intro kw hkw
        simp only [Bool.not_eq_true]
        exact hl q hq kw hkw))
      (List.any_eq_true.mpr hp)]

theorem extractIndustry_classifier_spec_witness :
    classifyIndustry "financial analyst" = "finance" :=
  extractIndustry_classifier_spec.2.2.1 "financial analyst"
    [("tech", ["software", "developer", "engineer", "tech", "programming",
               "coding", "javascript", "python", "react", "node"]),
     ("marketing", ["marketing", "digital", "social media", "seo", "content",
                    "brand", "advertising"]),
     ("sales", ["sales", "business development", "account", "revenue",
                "client", "customer"])]
    ("finance", ["finance", "financial", "investment", "banking",
                 "accounting", "analyst"])
    [("healthcare", ["healthcare", "medical", "doctor", "nurse", "physician",
                     "hospital", "clinic"]),
     ("education", ["education", "teacher", "professor", "academic",
                    "university", "school"]),
     ("consulting", ["consulting", "consultant", "advisory", "strategy",
                     "management"])]
    rfl (by decide) (by decide)

/-- C3: a generation-API response body with a block reason in its prompt
feedback and no candidate list yields the blocked outcome carrying that
reason (never the empty outcome); a body with at least one candidate yields
the trimmed text of its first candidate as success; a body with neither
yields the empty outcome. -/
theorem handleGeminiResponse_branch_spec :
    (∀ (r : GeminiResponse) (reason : String), reason ≠ "" →
      r.candidates = none →
      r.promptFeedback = some { blockReason := some reason } →
      handleGeminiResponse r = .blocked reason ∧ handleGeminiResponse r ≠ .empty) ∧
    (∀ (r : GeminiResponse) (c : GeminiCandidate) (cs : List GeminiCandidate)
       (p : GeminiPart) (ps : List GeminiPart),
      r.candidates = some (c :: cs) → c.content.parts = p :: ps →
      handleGeminiResponse r = .success (jsTrim p.text)) ∧
    (∀ r : GeminiResponse, r.candidates = none →
      (r.promptFeedback = none ∨ r.promptFeedback = some { blockReason := none }) →
      handleGeminiResponse r = .empty) := by
  refine ⟨?_, ?_, ?_⟩
  · intro r reason hne hc hf
    have h : handleGeminiResponse r = .blocked reason := by
      unfold handleGeminiResponse
      rw [hc, hf]
      simp [hne]
    exact ⟨h, by rw [h]; intro hcontra; exact GenResult.noConfusion hcontra⟩
  · intro r c cs p ps hc hp
    simp [handleGeminiResponse, hc, hp]
  · intro r hc hf
    unfold handleGeminiResponse
    rw [hc]
    rcases hf with h | h <;> rw [h]

theorem handleGeminiResponse_branch_spec_witness :
    handleGeminiResponse
      { candidates := none, promptFeedback := some { blockReason := some "SAFETY" } } =
        .blocked "SAFETY" ∧
    handleGeminiResponse
      { candidates := none, promptFeedback := some { blockReason := some "SAFETY" } } ≠ .empty :=
  handleGeminiResponse_branch_spec.1
    { candidates := none, promptFeedback := some { blockReason := some "SAFETY" } }
    "SAFETY" (by decide) rfl rfl

/-- C5 as amended: the version-update migration never changes any key other
than statistics; it leaves the whole document untouched when the stored
statistics value is truthy; and when the statistics property is absent it
adds the default statistics section, whose messagesGenerated counter is
zero.  (The amendment is forced because a present-but-falsy statistics value
is also replaced, see the counterexample.) -/
theorem handleUpdate_additive_spec :
    (∀ (doc : SettingsDoc) (ts : JVal) (k : String), k ≠ "statistics" →
      handleUpdate doc ts k = doc k) ∧
    (∀ (doc : SettingsDoc) (ts : JVal), jsTruthy (doc "statistics") = true →
      handleUpdate doc ts = doc) ∧
    (∀ (doc : SettingsDoc) (ts : JVal), doc "statistics" = none →
      handleUpdate doc ts "statistics" = some (defaultStatistics ts)) ∧
    (∀ ts : JVal, (defaultStatistics ts).objGet "messagesGenerated" = some (.num 0)) := by
  refine ⟨?_, ?_, ?_, fun ts => rfl⟩
  · intro doc ts k hk
    unfold handleUpdate
    split
    · rfl
    · cases hdk : doc k <;> simp [storageSet, setKey, hk, hdk]
  · intro doc ts ht
    unfold handleUpdate
    simp [ht]
  · intro doc ts hnone
    unfold handleUpdate
    rw [hnone]
    simp [jsTruthy, storageSet, setKey]

theorem handleUpdate_additive_spec_witness :
    handleUpdate (fun k => if k = "userContext" then some (.str "CS grad") else none)
      (.str "2026-10-12") "userContext" = some (.str "CS grad") ∧
    handleUpdate (fun k => if k = "userContext" then some (.str "CS grad") else none)
      (.str "2026-10-12") "statistics" =
        some (defaultStatistics (.str "2026-10-12")) := by
  constructor
  · exact (handleUpdate_additive_spec.1
      (fun k => if k = "userContext" then some (.str "CS grad") else none)
      (.str "2026-10-12") "userContext" (by decide)).trans rfl
  · exact handleUpdate_additive_spec.2.2.1
      (fun k => if k = "userContext" then some (.str "CS grad") else none)
      (.str "2026-10-12") rfl

/-- C5 counterexample: on a document whose statistics field holds the falsy
value 0, the version-update migration overwrites that existing field with
the default statistics object, so it does not preserve every existing field
verbatim. -/
theorem handleUpdate_overwrites_falsy_statistics :
    migrationCexDoc "statistics" = some (.num 0) ∧
    handleUpdate migrationCexDoc (.str "2026-10-12") "statistics" =
      some (defaultStatistics (.str "2026-10-12")) ∧
    defaultStatistics (.str "2026-10-12") ≠ .num 0 := by
  refine ⟨rfl, rfl, ?_⟩
  intro h
  exact JVal.noConfusion h

/-- C7: when no selector of the ordered name-locator list matches a node
with non-empty trimmed text, name extraction returns the literal default
(and, being a total Lean function, never throws); in general each field
extractor returns the trimmed text of the first matching locator of its
ordered list, else the field-specific default it was given. -/
theorem extractName_default_spec :
    (∀ d : Dom, (∀ sel ∈ nameSelectors, matchText d.q sel = none) →
      extractName d = "there") ∧
    (∀ (q : String → Option String) (dflt sel txt : String) (rest : List String),
      matchText q sel = some txt → extractField q dflt (sel :: rest) = txt) ∧
    (∀ (q : String → Option String) (dflt sel : String) (rest : List String),
      matchText q sel = none →
      extractField q dflt (sel :: rest) = extractField q dflt rest) ∧
    (∀ (q : String → Option String) (dflt : String),
      extractField q dflt [] = dflt) := by
  refine ⟨?_, ?_, ?_, fun q dflt => rfl⟩
  · intro d h
    exact extractField_eq_default d.q "there" nameSelectors h
  · intro q dflt sel txt rest hm
    simp [extractField, hm]
  · intro q dflt sel rest hm
    simp [extractField, hm]

theorem extractName_default_spec_witness :
    extractName { q := fun _ => none, qa := fun _ => [] } = "there" :=
  extractName_default_spec.1 { q := fun _ => none, qa := fun _ => [] }
    (fun _ _ => rfl)

/-- C10: whenever the about extractor finds a locator with non-empty trimmed
text, it returns the first 200 characters of that trimmed text with the
literal three-dot suffix appended; consequently every non-empty about value
has length at most 203 and ends with the suffix; when no locator matches,
the about value is the empty string. -/
theorem extractAbout_truncation_spec :
    (∀ d : Dom, (∀ sel ∈ aboutSelectors, matchText d.q sel = none) →
      extractAbout d = "") ∧
    (∀ (q : String → Option String) (sel txt : String) (rest : List String),
      matchText q sel = some txt →
      extractAboutFrom q (sel :: rest) = jsSubstring txt 200 ++ "...") ∧
    (∀ d : Dom, extractAbout d ≠ "" →
      (extractAbout d).length ≤ 203 ∧ jsEndsWith (extractAbout d) "..." = true) := by
  refine ⟨?_, ?_, ?_⟩
  · intro d h
    have : ∀ sels, (∀ sel ∈ sels, matchText d.q sel = none) →
        extractAboutFrom d.q sels = "" := by
      intro sels
      induction sels with
      | nil => intro _; rfl
      | cons sel rest ih =>
        intro hal
        have hsel := hal sel (List.mem_cons_self sel rest)
        simp only [extractAboutFrom, hsel]
        exact ih (fun s hs => hal s (List.mem_cons_of_mem sel hs))
    exact this aboutSelectors h
  · intro q sel txt rest hm
    simp [extractAboutFrom, hm]
  · intro d hne
    rcases extractAboutFrom_cases d.q aboutSelectors with h | ⟨t, h⟩
    · exact absurd h hne
    · rw [extractAbout] at hne ⊢
      rw [h]
      constructor
      · rw [String.length_append]
        have h1 : (jsSubstring t 200).length ≤ 200 := by
          show (t.data.take 200).length ≤ 200
          rw [List.length_take]
          exact inf_le_left
        have h2 : ("..." : String).length = 3 := rfl
        omega
      · rw [jsEndsWith, String.data_append]
        rw [List.isSuffixOf_iff_suffix]
        exact List.suffix_append _ _

theorem extractAbout_truncation_spec_witness :
    extractAbout { q := fun sel => if sel = ".pv-shared-text-with-see-more-text .break-words" then some " builder of things " else none, qa := fun _ => [] } = "builder of things..." :=
  (extractAbout_truncation_spec.2.1
    (fun sel => if sel = ".pv-shared-text-with-see-more-text .break-words" then some " builder of things " else none)
    ".pv-shared-text-with-see-more-text .break-words" "builder of things"
    [".pv-about__summary-text .break-words",
     "[data-field=\"summary\"] .break-words",
     ".about-section .pv-shared-text-with-see-more-text"]
    (by decide)).trans (by decide)

set_option maxRecDepth 100000 in
/-- C8: prompt construction on the profile with name Ada and headline
Engineer (remaining fields empty) yields a prompt containing the literal
substring starting the greeting with the first name, and containing the
headline text. -/
theorem createPrompt_ada_spec :
    jsIncludes (createPrompt adaProfile) "Hi Ada," = true ∧
    jsIncludes (createPrompt adaProfile) "Engineer" = true := by
  constructor <;> decide

theorem contentHandleAction_state (env : ContentEnv) (a : String) (s1 : ContentState) :
    ((contentHandleAction env a s1).2).isContentScriptReady = s1.isContentScriptReady ∧
    ((contentHandleAction env a s1).2).assistant.isSome = s1.assistant.isSome := by
  obtain ⟨r, assist⟩ := s1
  cases assist
  · simp [contentHandleAction]
  · simp only [contentHandleAction]
    split_ifs <;> simp

theorem initializeContentScript_not_ready (s : ContentState)
    (h : s.isContentScriptReady = false) :
    (initializeContentScript s).isContentScriptReady = true ∧
    (initializeContentScript s).assistant.isSome = true := by
  simp [initializeContentScript, h]

/-- C9: a ping leaves the content-script state unchanged, and a ping
received while the script is not yet initialized is answered with a
not-ready response without triggering initialization; every non-ping action
leaves the script initialized afterwards (lazily initializing it, with an
attached assistant, when the readiness flag was unset). -/
theorem ping_frame_spec :
    (∀ (env : ContentEnv) (s : ContentState),
      contentDispatch env "ping" s = ([{ ready := some s.isContentScriptReady }], s)) ∧
    (∀ (env : ContentEnv) (s : ContentState), s.isContentScriptReady = false →
      (contentDispatch env "ping" s).1 = [{ ready := some false }] ∧
      (contentDispatch env "ping" s).2 = s) ∧
    (∀ (env : ContentEnv) (a : String) (s : ContentState), a ≠ "ping" →
      ((contentDispatch env a s).2).isContentScriptReady = true ∧
      (s.isContentScriptReady = false →
        ((contentDispatch env a s).2).assistant.isSome = true)) := by
  have hping : ∀ (env : ContentEnv) (s : ContentState),
      contentDispatch env "ping" s = ([{ ready := some s.isContentScriptReady }], s) := by
    intro env s
    simp [contentDispatch]
  refine ⟨hping, ?_, ?_⟩
  · intro env s h
    rw [hping, h]
    exact ⟨rfl, rfl⟩
  · intro env a s ha
    have hd : contentDispatch env a s =
        contentHandleAction env a
          (if s.isContentScriptReady then s else initializeContentScript s) := by
      simp [contentDispatch, ha]
    rw [hd]
    cases hs : s.isContentScriptReady
    · have hinit := initializeContentScript_not_ready s hs
      have hstate := contentHandleAction_state env a (initializeContentScript s)
      simp only [hs, Bool.false_eq_true, if_false]
      exact ⟨hstate.1.trans hinit.1, fun _ => hstate.2.trans hinit.2⟩
    · simp only [hs, if_true]
      refine ⟨(contentHandleAction_state env a s).1.trans hs, ?_⟩
      intro hcontra
      simp at hcontra

theorem ping_frame_spec_witness :
    contentDispatch
      { dom := { q := fun _ => none, qa := fun _ => [] },
        urlMatchesProfile := false, requestData := .null }
      "ping" { isContentScriptReady := false, assistant := none } =
    ([{ ready := some false }],
      { isContentScriptReady := false, assistant := none }) :=
  ping_frame_spec.1
    { dom := { q := fun _ => none, qa := fun _ => [] },
      urlMatchesProfile := false, requestData := .null }
    { isContentScriptReady := false, assistant := none }

theorem contentHandleAction_length (env : ContentEnv) (a : String) (s1 : ContentState) :
    ((contentHandleAction env a s1).1).length = 1 := by
  obtain ⟨r, assist⟩ := s1
  cases assist
  · simp [contentHandleAction]
  · simp only [contentHandleAction]
    split_ifs <;> simp

theorem contentHandleAction_success (env : ContentEnv) (a : String) (s1 : ContentState) :
    ∃ (r : JResp) (b : Bool), (contentHandleAction env a s1).1 = [r] ∧ r.success = some b := by
  obtain ⟨rd, assist⟩ := s1
  cases assist
  · exact ⟨_, false, rfl, rfl⟩
  · simp only [contentHandleAction]
    split_ifs
    · unfold getProfileDataForMessage
      split_ifs
      · exact ⟨_, true, rfl, rfl⟩
      · exact ⟨_, false, rfl, rfl⟩
    · exact ⟨_, true, rfl, rfl⟩
    · exact ⟨_, false, rfl, rfl⟩

theorem contentHandleAction_unknown (env : ContentEnv) (a : String) (s1 : ContentState)
    (h1 : a ≠ "getProfileData") (h2 : a ≠ "settingsUpdated")
    (hsome : s1.assistant.isSome = true) :
    (contentHandleAction env a s1).1 = [unknownActionResp] := by
  obtain ⟨rd, assist⟩ := s1
  cases assist
  · simp at hsome
  · simp [contentHandleAction, h1, h2]

theorem handleGenerateMessage_has_success (env : GenEnv) :
    ∃ b : Bool, (handleGenerateMessage env).success = some b := by
  obtain ⟨key, fetch⟩ := env
  cases key with
  | none => exact ⟨false, rfl⟩
  | some k =>
    cases fetch with
    | error m => exact ⟨false, rfl⟩
    | ok fr =>
      simp only [handleGenerateMessage]
      split_ifs with hok
      · cases handleGeminiResponse fr.body <;> exact ⟨_, rfl⟩
      · exact ⟨false, rfl⟩

/-- C2 counterexample: ping is in the claimed closed action set, yet its
single response carries no success field at all (its only populated field is
the boolean ready), refuting the claim that every recognized action yields a
response containing a boolean success field. -/
theorem ping_response_lacks_success :
    "ping" ∈ claimedActions ∧
    ((contentDispatch emptyPageEnv "ping" freshContentState).1.map
      (fun r => (r.success, r.ready))) = [(none, some false)] := by
  exact ⟨by decide, rfl⟩

/-- C2 as amended: every action (recognized or not) delivered to the content
script or to the background context produces exactly one response; every
recognized action other than ping produces a response containing a boolean
success field, while the response to ping carries the boolean ready field
instead of success; and every action outside the set a dispatcher
recognizes is answered with the fixed unknown-action failure response. -/
theorem dispatch_single_response_spec :
    (∀ (env : ContentEnv) (a : String) (s : ContentState),
      ((contentDispatch env a s).1).length = 1) ∧
    (∀ (env : BgEnv) (a : String), (backgroundRespond env a).length = 1) ∧
    (∀ (env : ContentEnv) (a : String) (s : ContentState), a ≠ "ping" →
      ∃ (r : JResp) (b : Bool), (contentDispatch env a s).1 = [r] ∧ r.success = some b) ∧
    (∀ (env : BgEnv) (a : String),
      (a = "getSettings" ∨ a = "saveSettings" ∨ a = "generateMessage" ∨ a = "logActivity") →
      ∃ (r : JResp) (b : Bool), backgroundRespond env a = [r] ∧ r.success = some b) ∧
    (∀ env : GenEnv, ∃ b : Bool, (handleGenerateMessage env).success = some b) ∧
    (∀ (env : ContentEnv) (a : String) (s : ContentState),
      a ∉ (["ping", "getProfileData", "settingsUpdated"] : List String) →
      (s.isContentScriptReady = true → s.assistant.isSome = true) →
      (contentDispatch env a s).1 = [unknownActionResp]) ∧
    (∀ (env : BgEnv) (a : String),
      a ∉ (["generateGeminiMessage", "getSettings", "saveSettings",
            "generateMessage", "logActivity"] : List String) →
      backgroundRespond env a = [unknownActionResp]) := by
  refine ⟨?_, ?_, ?_, ?_, handleGenerateMessage_has_success, ?_, ?_⟩
  · intro env a s
    by_cases ha : a = "ping"
    · simp [contentDispatch, ha]
    · simp only [contentDispatch, if_neg ha]
      exact contentHandleAction_length env a _
  · intro env a
    by_cases hg : a = "generateGeminiMessage"
    · simp [backgroundRespond, topLevelRespond, managerRespond, hg]
    · simp only [backgroundRespond, topLevelRespond, managerRespond, if_neg hg]
      split_ifs <;> simp_all
  · intro env a s ha
    simp only [contentDispatch, if_neg ha]
    exact contentHandleAction_success env a _
  · intro env a h
    rcases h with h | h | h | h <;> subst h <;> exact ⟨_, true, rfl, rfl⟩
  · intro env a s hnotin hwf
    simp only [List.mem_cons, List.not_mem_nil, or_false, not_or] at hnotin
    obtain ⟨hping, hgpd, hsu⟩ := hnotin
    simp only [contentDispatch, if_neg hping]
    refine contentHandleAction_unknown env a _ hgpd hsu ?_
    cases hs : s.isContentScriptReady
    · simp only [hs, Bool.false_eq_true, if_false]
      exact (initializeContentScript_not_ready s hs).2
    · simp only [hs, if_true]
      exact hwf hs
  · intro env a h
    simp only [List.mem_cons, List.not_mem_nil, or_false, not_or] at h
    obtain ⟨h1, h2, h3, h4, h5⟩ := h
    simp [backgroundRespond, topLevelRespond, managerRespond, h1, h2, h3, h4, h5]

theorem dispatch_single_response_spec_witness :
    ((contentDispatch emptyPageEnv "showGenerateButton" freshContentState).1).length = 1 ∧
    (contentDispatch emptyPageEnv "showGenerateButton" freshContentState).1 = [unknownActionResp] := by
  constructor
  · exact dispatch_single_response_spec.1 emptyPageEnv "showGenerateButton" freshContentState
  · exact dispatch_single_response_spec.2.2.2.2.2.1 emptyPageEnv "showGenerateButton"
      freshContentState (by decide) (fun h => by simp [freshContentState] at h)

/-- C1: when the target context never answers the liveness probe (the probe
rejects) and never answers the post-install delivery either while injection
itself resolves, the bridge performs exactly one installation attempt and
exactly one post-install delivery attempt and reports the injection-failure
channel error; moreover no call of the bridge, and no run of the popup
fallback, ever performs more than one installation or more than two delivery
attempts, so the install-then-retry cycle cannot loop. -/
theorem bridge_single_retry_spec :
    (∀ (α : Type) (env : TabEnv α),
      env.tabGetOk = true → env.tabIsLinkedIn = true → env.ping = none →
      env.installOk = true → env.deliver2 = none →
      sendMessageToTab env = (.injectError, ⟨1, 1⟩)) ∧
    (∀ (α : Type) (env : TabEnv α),
      (sendMessageToTab env).2.installs ≤ 1 ∧
      (sendMessageToTab env).2.deliveries ≤ 2) ∧
    (∀ (α : Type) (env : PopupEnv α),
      (popupGetProfileData env).2.installs ≤ 1 ∧
      (popupGetProfileData env).2.deliveries ≤ 2) := by
  refine ⟨?_, ?_, ?_⟩
  · intro α env h1 h2 h3 h4 h5
    simp [sendMessageToTab, injectAndRetry, h1, h2, h3, h4, h5]
  · intro α env
    simp only [sendMessageToTab, injectAndRetry]
    repeat' split
    all_goals simp
  · intro α env
    simp only [popupGetProfileData]
    repeat' split
    all_goals simp

theorem bridge_single_retry_spec_witness :
    sendMessageToTab
      { tabGetOk := true, tabIsLinkedIn := true, ping := none,
        deliver1 := none, installOk := true, deliver2 := (none : Option Unit) } =
      (.injectError, ⟨1, 1⟩) :=
  bridge_single_retry_spec.1 Unit
    { tabGetOk := true, tabIsLinkedIn := true, ping := none,
      deliver1 := none, installOk := true, deliver2 := none }
    rfl rfl rfl rfl rfl

/-- C6: when the tab is reachable and the first liveness probe answers
ready, the bridge performs zero installation attempts and immediately
delivers the original request, returning the response of that single
delivery. -/
theorem bridge_ready_no_install_spec :
    ∀ (α : Type) (env : TabEnv α) (r : α),
      env.tabGetOk = true → env.tabIsLinkedIn = true → env.ping = some true →
      env.deliver1 = some r →
      sendMessageToTab env = (.delivered r, ⟨0, 1⟩) := by
  intro α env r h1 h2 h3 h4
  simp [sendMessageToTab, h1, h2, h3, h4]

theorem bridge_ready_no_install_spec_witness :
    sendMessageToTab
      { tabGetOk := true, tabIsLinkedIn := true, ping := some true,
        deliver1 := some true, installOk := false, deliver2 := none } =
      (.delivered true, ⟨0, 1⟩) :=
  bridge_ready_no_install_spec Bool
    { tabGetOk := true, tabIsLinkedIn := true, ping := some true,
      deliver1 := some true, installOk := false, deliver2 := none }
    true rfl rfl rfl rfl
